import Mathlib

/-!
# Verification of the AngelOne broker-adapter layer

A shallow embedding of the broker-adapter layer of this repository and of
the two pieces of real frontend code (`Dashboard.jsx`) that the claims
touch.  Exact numeric values are modelled as `ℚ` (the source's own
precision, no floating-point drift), timestamps as `ℤ`/`ℕ`.

The broker-layer implementation files named in the design document
(`auth_manager.py`, `market_hours.py`, `data_converter.py`,
`symbol_mapper.py`, `angelone_client.py`) are not present in the
repository; only their class declarations with `pass` bodies appear in
`.kiro/specs/llm-tradebot-angelone/design.md`.  Definitions for those
components are therefore modelled from the specification's words, and
each such definition says so in its doc comment.
-/

namespace TradeBot

/-! ## FormatAdapter: candle conversion (design.md, DataConverter) -/

/-- Broker-side candle: the tuple `[timestamp, open, high, low, close, volume]`
described in `DataConverter.convert_candle`'s docstring. -/
structure AngelCandle where
  timestamp : ℤ
  openP : ℚ
  high : ℚ
  low : ℚ
  close : ℚ
  volume : ℚ
  deriving DecidableEq, Repr

/-- Canonical (Binance-compatible) candle record, fields as listed in
`DataConverter.convert_candle`'s docstring and section 6 of the spec. -/
structure BinanceCandle where
  open_time : ℤ
  openP : ℚ
  high : ℚ
  low : ℚ
  close : ℚ
  volume : ℚ
  close_time : ℤ
  quote_volume : ℚ
  trades : ℕ
  taker_buy_base : ℚ
  taker_buy_quote : ℚ
  deriving DecidableEq, Repr

/-- Modelled from the spec: `DataConverter.convert_candle` (the
implementation file `data_converter.py` is missing; the output shape is
fixed by the docstring in design.md lines 283-305): broker tuple to
canonical record, `close_time := timestamp`, `quote_volume := volume * close`,
trade-count fields defaulted to zero. -/
def convert_candle (a : AngelCandle) : BinanceCandle :=
  { open_time := a.timestamp
    openP := a.openP
    high := a.high
    low := a.low
    close := a.close
    volume := a.volume
    close_time := a.timestamp
    quote_volume := a.volume * a.close
    trades := 0
    taker_buy_base := 0
    taker_buy_quote := 0 }

/-- Modelled from the spec: the reverse converter "canonical record →
broker tuple" (spec §4.4; no implementation file exists): project the
timestamp and the OHLCV fields back into the broker tuple. -/
def candle_to_broker (b : BinanceCandle) : AngelCandle :=
  { timestamp := b.open_time
    openP := b.openP
    high := b.high
    low := b.low
    close := b.close
    volume := b.volume }

/-! ## Canonical positions and P&L (design.md, Position / DataConverter) -/

/-- Canonical position record (design.md `Position` dataclass). -/
structure Position where
  symbol : String
  quantity : ℚ
  average_price : ℚ
  current_price : ℚ
  pnl : ℚ
  pnl_percent : ℚ
  deriving DecidableEq, Repr

/-- Modelled from the spec: the position refresh (spec §3: "P&L =
(current_price − average_price) × quantity, recomputed on every refresh,
never persisted as a separate source of truth"; no implementation file
exists).  Takes the stored position and the fresh price and rebuilds the
derived fields from `quantity`, `average_price` and the new price only. -/
def refresh_position (p : Position) (newPrice : ℚ) : Position :=
  { p with
    current_price := newPrice
    pnl := (newPrice - p.average_price) * p.quantity
    pnl_percent :=
      if p.average_price = 0 then 0
      else (newPrice - p.average_price) / p.average_price * 100 }

/-! ## MarketCalendar (design.md, MarketHoursManager) -/

/-- An instant of wall-clock IST time: a day index (market epoch chosen
so that `day % 7 = 0` is a Monday) and an hour/minute time of day. -/
structure Instant where
  day : ℕ
  hour : ℕ
  minute : ℕ
  deriving DecidableEq, Repr

/-- Modelled from the spec: `MarketHoursManager.is_trading_day`
(`market_hours.py` is missing; spec §4.3: "false for weekends and dates
present in the holiday set, true otherwise"). -/
def is_trading_day (holidays : List ℕ) (day : ℕ) : Bool :=
  !(day % 7 = 5 || day % 7 = 6) && !(holidays.contains day)

/-- Minutes since midnight of an instant's time of day. -/
def minuteOfDay (i : Instant) : ℕ := i.hour * 60 + i.minute

/-- Modelled from the spec: `MarketHoursManager.is_market_open`
(`market_hours.py` is missing; design.md: `MARKET_OPEN = time(9, 15)`,
`MARKET_CLOSE = time(15, 30)`, Property 14).  Open boundary inclusive;
the fixed close-boundary policy chosen here is inclusive, matching
Property 14's "between 9:15 AM and 3:30 PM".  The check is written the
way an implementation would: weekday test, holiday-list membership test,
then a comparison on minutes since midnight. -/
def is_market_open (holidays : List ℕ) (i : Instant) : Bool :=
  is_trading_day holidays i.day &&
    (555 ≤ minuteOfDay i && minuteOfDay i ≤ 930)

/-! ## AuthSessionManager: credential validation (design.md, AuthManager) -/

/-- Credential set with the four required fields of design.md
Property 3 (`api_key`, `client_code`, `password`, `totp_secret`).  The
spec's names identifier / secret / one-time-password seed correspond to
`client_code` / `password` / `totp_secret`. -/
structure Credentials where
  api_key : String
  client_code : String
  password : String
  totp_secret : String
  deriving DecidableEq, Repr

/-- The error payload `{code, message, details}` of spec §6, with
`details` holding the list of offending field names. -/
structure ConfigurationError where
  code : String
  message : String
  fields : List String
  deriving DecidableEq, Repr

/-- The required fields of a credential set that are empty, each by its
name, in declaration order. -/
def missingFields (c : Credentials) : List String :=
  (if c.api_key = "" then ["api_key"] else []) ++
    (if c.client_code = "" then ["client_code"] else []) ++
      (if c.password = "" then ["password"] else []) ++
        (if c.totp_secret = "" then ["totp_secret"] else [])

/-- Modelled from the spec: `validateCredentials` (no implementation
file exists; spec §4.1: "fails with a ConfigurationError listing every
missing/empty required field before any network attempt"). -/
def validateCredentials (c : Credentials) : Except ConfigurationError Unit :=
  if missingFields c = [] then .ok ()
  else .error ⟨"CONFIG_001", "missing required credentials", missingFields c⟩

/-- A session as stored on successful login (design.md: jwt token,
refresh token, feed token). -/
structure Session where
  jwt_token : String
  refresh_token : String
  feed_token : String
  deriving DecidableEq, Repr

/-- Modelled from the spec: the connect flow of `AngelOneClient.connect`
(no implementation file exists; design.md Requirement 1.6: "validate all
credentials before attempting connection").  The second component counts
network calls made. -/
def connect (c : Credentials) : Except ConfigurationError Session × ℕ :=
  match validateCredentials c with
  | .error e => (.error e, 0)
  | .ok _ => (.ok ⟨"jwt", "refresh", "feed"⟩, 1)

/-! ## SymbolResolver (design.md, SymbolMapper) -/

/-- Symbol record (design.md `SymbolInfo` dataclass). -/
structure SymbolRecord where
  symbol : String
  exchange : String
  token : String
  lot_size : ℕ
  tick_size : ℚ
  instrument_type : String
  deriving DecidableEq, Repr

/-- `UnknownSymbolError` payload: the requested symbol and exchange
(spec §4.2). -/
structure UnknownSymbolError where
  symbol : String
  exchange : String
  deriving DecidableEq, Repr

/-- Modelled from the spec: `SymbolResolver.resolve` over the loaded
catalog (`symbol_mapper.py` is missing; spec §4.2: "returns a
SymbolRecord; fails with UnknownSymbolError containing the requested
symbol and exchange if absent").  The catalog is the in-memory index
keyed by (symbol, exchange). -/
def resolve (catalog : List SymbolRecord) (s e : String) :
    Except UnknownSymbolError SymbolRecord :=
  match catalog.find? (fun r => r.symbol == s && r.exchange == e) with
  | some r => .ok r
  | none => .error ⟨s, e⟩

/-! ## OrderGateway (design.md, order execution) -/

/-- Canonical order request (spec §6). -/
structure OrderRequest where
  symbol : String
  side : String
  order_kind : String
  quantity : ℚ
  price : ℚ
  product_type : String
  deriving DecidableEq, Repr

/-- Outcome of a live order placement. -/
inductive PlaceResult where
  | refused (code : String)
  | submitted (order_id : String) (status : String)
  deriving DecidableEq, Repr

/-- Modelled from the spec: `OrderGateway.placeOrder`'s market-hours
gate (no implementation file exists; spec §4.5: "If MarketCalendar.isOpen()
is false at submission time, live order placement is refused"; design.md
error code `MARKET_001`).  The second component counts broker network
calls made. -/
def place_order (holidays : List ℕ) (now : Instant) (req : OrderRequest) :
    PlaceResult × ℕ :=
  if is_market_open holidays now then
    (.submitted ("ORD-" ++ req.symbol) "ACKNOWLEDGED", 1)
  else
    (.refused "MARKET_001", 0)

/-- Modelled from the spec: a read-only quote query while the market is
closed (spec §7: "reads return cached/last data"; no implementation file
exists).  Returns the cached price and makes no network call when
closed. -/
def get_quote (holidays : List ℕ) (now : Instant) (cached : Option ℚ)
    (live : ℚ) : Option ℚ × ℕ :=
  if is_market_open holidays now then (some live, 1) else (cached, 0)

/-! ## AuthSessionManager: one-time code generation (design.md, AuthManager) -/

/-- The 30-second time window a clock reading falls in (spec glossary:
"time-stepped ... valid for a 30-second window"). -/
def windowOf (clock : ℕ) : ℕ := clock / 30

/-- Modelled from the spec: the numeric value underlying the one-time
code (`auth_manager.py` is missing; spec §4.1: "deterministic
time-stepped 6-digit numeric code derived from the seed and the current
30-second time window"; the spec fixes no particular derivation, only
that it is a pure function of seed and window into six digits). -/
def totpValue (seed window : ℕ) : ℕ := (seed + window) % 1000000

/-- One decimal digit as a character. -/
def digitCharOf (d : ℕ) : Char :=
  match d with
  | 0 => '0' | 1 => '1' | 2 => '2' | 3 => '3' | 4 => '4'
  | 5 => '5' | 6 => '6' | 7 => '7' | 8 => '8' | _ => '9'

/-- Zero-padded six-digit decimal rendering of a value below 10^6. -/
def toCode6 (n : ℕ) : String :=
  String.mk [digitCharOf (n / 100000 % 10), digitCharOf (n / 10000 % 10),
    digitCharOf (n / 1000 % 10), digitCharOf (n / 100 % 10),
    digitCharOf (n / 10 % 10), digitCharOf (n % 10)]

/-- Modelled from the spec: `generateOneTimeCode(seed, clock)` /
`AuthManager.generate_totp` (`auth_manager.py` is missing; design.md
Property 1: "a 6-digit numeric string that changes every 30 seconds"). -/
def generate_totp (seed clock : ℕ) : String :=
  toCode6 (totpValue seed (windowOf clock))

/-! ## AuthSessionManager: single-flight session refresh

Modelled from the spec: `ensureValidSession()`'s single-flight refresh
(no implementation file exists; spec §4.1/§5: "concurrent callers await
the same in-flight refresh rather than triggering duplicate refreshes").
Two callers, each running `ensureValidSession`, are interleaved by an
arbitrary cooperative schedule; every step below is one atomic segment
between await points. -/

/-- Program counter of one `ensureValidSession` caller. -/
inductive CallerPC where
  | start
  | refreshing
  | waiting
  | done
  deriving DecidableEq, Repr

/-- Shared state: the in-flight-refresh flag, the session-validity flag
set by a completed refresh, the count of refresh network calls made so
far, and the two callers' program counters. -/
structure FlightState where
  inflight : Bool
  sessionValid : Bool
  networkCalls : ℕ
  pc1 : CallerPC
  pc2 : CallerPC
  deriving DecidableEq, Repr

/-- Initial state of the claim's scenario: both callers find the session
expired (not valid), no refresh in flight, no network call made yet. -/
def flightInit : FlightState :=
  { inflight := false, sessionValid := false, networkCalls := 0
    pc1 := .start, pc2 := .start }

/-- Read the scheduled caller's program counter. -/
def pcOf (s : FlightState) (i : Bool) : CallerPC :=
  if i then s.pc2 else s.pc1

/-- Write the scheduled caller's program counter. -/
def setPC (s : FlightState) (i : Bool) (pc : CallerPC) : FlightState :=
  if i then { s with pc2 := pc } else { s with pc1 := pc }

/-- One atomic step of caller `i`:
`start`: if the session is already valid, return; else if a refresh is
in flight, await it; else mark the refresh in flight and make the one
refresh network call.  `refreshing`: the refresh completes, the session
becomes valid, the in-flight flag clears.  `waiting`: once no refresh is
in flight the awaited result is observed.  `done`: no-op. -/
def flightStep (s : FlightState) (i : Bool) : FlightState :=
  match pcOf s i with
  | .start =>
      if s.sessionValid then setPC s i .done
      else if s.inflight then setPC s i .waiting
      else setPC { s with inflight := true, networkCalls := s.networkCalls + 1 }
        i .refreshing
  | .refreshing =>
      setPC { s with inflight := false, sessionValid := true } i .done
  | .waiting =>
      if s.inflight then s else setPC s i .done
  | .done => s

/-- Run a cooperative schedule (a list of caller choices). -/
def flightRun (sched : List Bool) : FlightState :=
  sched.foldl flightStep flightInit

end TradeBot

namespace Dashboard

/-! ## Frontend code (src/frontend/src/pages/Dashboard.jsx) -/

/-- An instrument as handled by the dashboard watchlist
(`Dashboard.jsx`): the fields `addToWatchlist` and `fetchLTP` read. -/
structure Instrument where
  token : String
  symbol : String
  brsymbol : String
  brexchange : String
  deriving DecidableEq, Repr

/-- `addToWatchlist` from `Dashboard.jsx` lines 46-53: if some entry of
the watchlist has the same `token` the list is returned unchanged and no
price fetch starts (the `alert` branch); otherwise the instrument is
appended and one `fetchLTP` is started.  The boolean records whether a
price fetch was started. -/
def addToWatchlist (watchlist : List Instrument) (inst : Instrument) :
    List Instrument × Bool :=
  if (watchlist.find? (fun w => w.token == inst.token)).isSome then
    (watchlist, false)
  else
    (watchlist ++ [inst], true)

/-- `intervalMap` from `Dashboard.jsx` lines 1835-1839, as a partial map
from the export-interval selector value to the broker timeframe. -/
def intervalMap (s : String) : Option String :=
  if s = "1min" then some "ONE_MINUTE"
  else if s = "5min" then some "FIVE_MINUTE"
  else if s = "15min" then some "FIFTEEN_MINUTE"
  else if s = "30min" then some "THIRTY_MINUTE"
  else if s = "hourly" then some "ONE_HOUR"
  else if s = "daily" then some "ONE_DAY"
  else if s = "weekly" then some "ONE_DAY"
  else if s = "monthly" then some "ONE_DAY"
  else none

/-- `const apiInterval = intervalMap[exportInterval] || 'ONE_DAY'`
(`Dashboard.jsx` line 1840): every mapped value of `intervalMap` is a
non-empty (truthy) string, so the JavaScript `||` default fires exactly
when the selector value is absent from the map. -/
def apiInterval (s : String) : String :=
  (intervalMap s).getD "ONE_DAY"

end Dashboard

open TradeBot Dashboard

/-- C1: converting a broker candle tuple to the canonical record and back
returns exactly the original timestamp and OHLCV values (values are `ℚ`,
so exactness is on the nose: no rounding drift). -/
theorem candle_roundtrip_exact (a : AngelCandle) :
    candle_to_broker (convert_candle a) = a := rfl

/-- C6: the derived `pnl` field of a refreshed position equals
`(current_price − average_price) × quantity` exactly, and it is
recomputed from those fields: whatever `pnl` value was previously stored
has no influence on the refreshed value. -/
theorem pnl_recomputed (p : Position) (c : ℚ) :
    (refresh_position p c).pnl = (c - p.average_price) * p.quantity ∧
    ∀ x : ℚ, (refresh_position { p with pnl := x } c).pnl =
      (refresh_position p c).pnl :=
  ⟨rfl, fun _ => rfl⟩

/-- C9: if the watchlist already holds an entry with the instrument's
token, `addToWatchlist` leaves the list unchanged and starts no price
fetch; and `addToWatchlist` preserves token-uniqueness of the watchlist,
so a watchlist built through it never holds two entries with one token. -/
theorem watchlist_token_unique (wl : List Instrument) (inst : Instrument) :
    ((∃ w ∈ wl, w.token = inst.token) → addToWatchlist wl inst = (wl, false)) ∧
    ((wl.map Instrument.token).Nodup →
      (((addToWatchlist wl inst).1).map Instrument.token).Nodup) := by
  constructor
  · intro h
    rcases h with ⟨w, hw, htok⟩
    have : (wl.find? (fun w => w.token == inst.token)).isSome := by
      rw [List.find?_isSome]
      exact ⟨w, hw, by simp [htok]⟩
    simp [addToWatchlist, this]
  · intro hnd
    by_cases hf : (wl.find? (fun w => w.token == inst.token)).isSome
    · simpa [addToWatchlist, hf] using hnd
    · have hnone : wl.find? (fun w => w.token == inst.token) = none := by
        rcases hopt : wl.find? (fun w => w.token == inst.token) with _ | w
        · exact hopt
        · exact absurd (by simp [hopt]) hf
      have hnotin : inst.token ∉ wl.map Instrument.token := by
        intro hmem
        rcases List.mem_map.mp hmem with ⟨w, hw, htok⟩
        have := List.find?_eq_none.mp hnone w hw
        simp [htok] at this
      simp only [addToWatchlist, hf, if_false, Bool.false_eq_true]
      simp [List.nodup_append, hnd, hnotin]

/-- C9 witness: a concrete duplicate-token insertion is a no-op with no
fetch, and token-uniqueness is preserved on a concrete list. -/
theorem watchlist_token_unique_witness :
    addToWatchlist [⟨"3045", "SBIN", "SBIN-EQ", "NSE"⟩]
        ⟨"3045", "SBIN", "SBIN-EQ", "NSE"⟩ =
      ([⟨"3045", "SBIN", "SBIN-EQ", "NSE"⟩], false) ∧
    (([⟨"3045", "SBIN", "SBIN-EQ", "NSE"⟩] :
        List Instrument).map Instrument.token).Nodup :=
  ⟨(watchlist_token_unique [⟨"3045", "SBIN", "SBIN-EQ", "NSE"⟩]
      ⟨"3045", "SBIN", "SBIN-EQ", "NSE"⟩).1
      ⟨⟨"3045", "SBIN", "SBIN-EQ", "NSE"⟩, by simp, rfl⟩,
    by simp⟩

/-- C10: the timeframe sent to the historical-data fetch is the image of
the selector value under `intervalMap`; the selectors `weekly` and
`monthly`, and every value absent from the map, are sent as `ONE_DAY`. -/
theorem export_interval_mapping (s : String) (h : intervalMap s = none) :
    apiInterval "1min" = "ONE_MINUTE" ∧ apiInterval "5min" = "FIVE_MINUTE" ∧
    apiInterval "15min" = "FIFTEEN_MINUTE" ∧
    apiInterval "30min" = "THIRTY_MINUTE" ∧ apiInterval "hourly" = "ONE_HOUR" ∧
    apiInterval "daily" = "ONE_DAY" ∧ apiInterval "weekly" = "ONE_DAY" ∧
    apiInterval "monthly" = "ONE_DAY" ∧ apiInterval s = "ONE_DAY" := by
  refine ⟨by decide, by decide, by decide, by decide, by decide, by decide,
    by decide, by decide, ?_⟩
  simp [apiInterval, h]

/-- C10 witness: the unmapped selector value `yearly` is sent as
`ONE_DAY`. -/
theorem export_interval_mapping_witness :
    intervalMap "yearly" = none ∧ apiInterval "yearly" = "ONE_DAY" :=
  ⟨by decide, (export_interval_mapping "yearly" (by decide)).2.2.2.2.2.2.2.2⟩

/-- C2: `is_market_open` is true exactly when the instant's date is a
trading day (not a weekend, not a holiday) and its time of day lies in
the 9:15-15:30 IST window, open boundary inclusive, with the one fixed
(inclusive) close-boundary policy; the window condition is stated here
independently, on hours and minutes. -/
theorem market_open_iff (holidays : List ℕ) (i : Instant)
    (hm : i.minute < 60) :
    is_market_open holidays i = true ↔
      (is_trading_day holidays i.day = true ∧
        ((9 < i.hour ∨ (i.hour = 9 ∧ 15 ≤ i.minute)) ∧
          (i.hour < 15 ∨ (i.hour = 15 ∧ i.minute ≤ 30)))) := by
  simp only [is_market_open, minuteOfDay, Bool.and_eq_true, decide_eq_true_eq]
  constructor
  · rintro ⟨ht, hw⟩
    exact ⟨ht, by omega⟩
  · rintro ⟨ht, hw⟩
    exact ⟨ht, by omega⟩

/-- C2 witness: on a Monday that is not a holiday the market is open at
exactly 9:15 (open boundary inclusive). -/
theorem market_open_iff_witness : is_market_open [] ⟨0, 9, 15⟩ = true :=
  (market_open_iff [] ⟨0, 9, 15⟩ (by decide)).mpr
    ⟨by decide, Or.inr ⟨rfl, le_refl 15⟩, Or.inl (by decide)⟩

/-- C4: a credential set with a missing/empty required field fails
validation with a `ConfigurationError` whose field list names exactly
the empty required fields (hence every one of them), and the connect
flow makes no network call. -/
theorem credential_validation (c : Credentials)
    (h : c.client_code = "" ∨ c.password = "" ∨ c.totp_secret = "") :
    ∃ err, validateCredentials c = .error err ∧
      (∀ f, f ∈ err.fields ↔
        ((f = "api_key" ∧ c.api_key = "") ∨
          (f = "client_code" ∧ c.client_code = "") ∨
            (f = "password" ∧ c.password = "") ∨
              (f = "totp_secret" ∧ c.totp_secret = ""))) ∧
      (connect c).2 = 0 := by
  have hne : missingFields c ≠ [] := by
    simp only [missingFields]
    rcases h with h | h | h <;> simp [h]
  refine ⟨⟨"CONFIG_001", "missing required credentials", missingFields c⟩,
    by simp [validateCredentials, hne], ?_, by simp [connect, validateCredentials, hne]⟩
  intro f
  simp only [missingFields, List.mem_append]
  split_ifs <;> simp_all <;> tauto

/-- C4 witness: a credential set with empty `client_code` and empty
`totp_secret` fails validation naming both, before any network call. -/
theorem credential_validation_witness :
    ∃ err, validateCredentials ⟨"key", "", "pin", ""⟩ = .error err ∧
      (∀ f, f ∈ err.fields ↔
        ((f = "api_key" ∧ ("key" : String) = "") ∨
          (f = "client_code" ∧ ("" : String) = "") ∨
            (f = "password" ∧ ("pin" : String) = "") ∨
              (f = "totp_secret" ∧ ("" : String) = ""))) ∧
      (connect ⟨"key", "", "pin", ""⟩).2 = 0 :=
  credential_validation ⟨"key", "", "pin", ""⟩ (Or.inl rfl)

/-- C7: when the market calendar says the market is closed, a live
order placement is refused with the market-closed code and zero broker
network calls, while a read-only quote query still returns the cached
last-known value (also with zero network calls). -/
theorem closed_market_order_refused (holidays : List ℕ) (now : Instant)
    (req : OrderRequest) (cached : Option ℚ) (live : ℚ)
    (h : is_market_open holidays now = false) :
    place_order holidays now req = (.refused "MARKET_001", 0) ∧
    get_quote holidays now cached live = (cached, 0) := by
  simp [place_order, get_quote, h]

/-- C7 witness: on a Sunday the concrete market order is refused with no
network call and the quote query returns the cached price. -/
theorem closed_market_order_refused_witness :
    place_order [] ⟨6, 10, 0⟩ ⟨"SBIN-EQ", "BUY", "MARKET", 10, 0, "INTRADAY"⟩ =
      (.refused "MARKET_001", 0) ∧
    get_quote [] ⟨6, 10, 0⟩ (some 100) 101 = (some 100, 0) :=
  closed_market_order_refused [] ⟨6, 10, 0⟩
    ⟨"SBIN-EQ", "BUY", "MARKET", 10, 0, "INTRADAY"⟩ (some 100) 101 (by decide)

/-- On a catalog whose (symbol, exchange) keys are duplicate-free,
`find?` returns exactly the catalog entry carrying the requested key. -/
theorem find_entry_of_key_nodup (catalog : List SymbolRecord)
    (r : SymbolRecord) (s e : String)
    (hnd : (catalog.map fun x => (x.symbol, x.exchange)).Nodup)
    (hr : r ∈ catalog) (hs : r.symbol = s) (he : r.exchange = e) :
    catalog.find? (fun x => x.symbol == s && x.exchange == e) = some r := by
  induction catalog with
  | nil => cases hr
  | cons a t ih =>
    simp only [List.map_cons, List.nodup_cons] at hnd
    rcases List.mem_cons.mp hr with rfl | hrt
    · simp [List.find?_cons_of_pos, hs, he]
    · by_cases ha : a.symbol = s ∧ a.exchange = e
      · exfalso
        apply hnd.1
        rw [ha.1, ha.2, ← hs, ← he]
        exact List.mem_map.mpr ⟨r, hrt, rfl⟩
      · rw [List.find?_cons_of_neg, ih hnd.2 hrt]
        simp only [Bool.and_eq_true, beq_iff_eq]
        exact ha

/-- C5: on a catalog in which (symbol, exchange) uniquely determines an
entry, `resolve` returns exactly the catalog entry matching the
requested pair, and for a pair matched by no catalog entry it fails with
an `UnknownSymbolError` carrying the requested symbol and exchange. -/
theorem symbol_resolution (catalog : List SymbolRecord) (s e : String) :
    (∀ r ∈ catalog,
      (catalog.map fun x => (x.symbol, x.exchange)).Nodup →
        r.symbol = s → r.exchange = e → resolve catalog s e = .ok r) ∧
    ((∀ r ∈ catalog, ¬(r.symbol = s ∧ r.exchange = e)) →
      resolve catalog s e = .error ⟨s, e⟩) := by
  constructor
  · intro r hr hnd hs he
    rw [resolve, find_entry_of_key_nodup catalog r s e hnd hr hs he]
  · intro habs
    have hnone : catalog.find? (fun x => x.symbol == s && x.exchange == e) = none := by
      rw [List.find?_eq_none]
      intro x hx
      simpa using habs x hx
    rw [resolve, hnone]

/-- C5 witness: the spec's own scenario.  With the catalog holding the
single record `{symbol "ABC", exchange "X1", token "1001", lot_size 1}`,
`resolve "ABC" "X1"` returns that record and `resolve "ZZZ" "X1"` fails
with an error naming `ZZZ` and `X1`. -/
theorem symbol_resolution_witness :
    resolve [⟨"ABC", "X1", "1001", 1, 1/20, "EQ"⟩] "ABC" "X1" =
      .ok ⟨"ABC", "X1", "1001", 1, 1/20, "EQ"⟩ ∧
    resolve [⟨"ABC", "X1", "1001", 1, 1/20, "EQ"⟩] "ZZZ" "X1" =
      .error ⟨"ZZZ", "X1"⟩ :=
  ⟨(symbol_resolution [⟨"ABC", "X1", "1001", 1, 1/20, "EQ"⟩] "ABC" "X1").1
      ⟨"ABC", "X1", "1001", 1, 1/20, "EQ"⟩ (by simp) (by simp) rfl rfl,
    (symbol_resolution [⟨"ABC", "X1", "1001", 1, 1/20, "EQ"⟩] "ZZZ" "X1").2
      (by intro r hr; simp at hr; simp [hr])⟩

/-- Every character produced by `digitCharOf` is a decimal digit. -/
theorem digitCharOf_isDigit (d : ℕ) : (digitCharOf d).isDigit = true := by
  match d with
  | 0 | 1 | 2 | 3 | 4 | 5 | 6 | 7 | 8 => rfl
  | n + 9 => rfl

/-- `digitCharOf` is injective on single digits. -/
theorem digitCharOf_inj (x y : ℕ) (hx : x < 10) (hy : y < 10)
    (h : digitCharOf x = digitCharOf y) : x = y := by
  interval_cases x <;> interval_cases y <;> revert h <;> decide

/-- `toCode6` is injective below `10^6`: distinct code values render as
distinct six-digit strings. -/
theorem toCode6_inj (a b : ℕ) (ha : a < 1000000) (hb : b < 1000000)
    (h : toCode6 a = toCode6 b) : a = b := by
  have hdata := congrArg String.data h
  simp only [toCode6, List.cons.injEq, and_true] at hdata
  obtain ⟨h5, h4, h3, h2, h1, h0⟩ := hdata
  have e5 := digitCharOf_inj _ _ (Nat.mod_lt _ (by omega)) (Nat.mod_lt _ (by omega)) h5
  have e4 := digitCharOf_inj _ _ (Nat.mod_lt _ (by omega)) (Nat.mod_lt _ (by omega)) h4
  have e3 := digitCharOf_inj _ _ (Nat.mod_lt _ (by omega)) (Nat.mod_lt _ (by omega)) h3
  have e2 := digitCharOf_inj _ _ (Nat.mod_lt _ (by omega)) (Nat.mod_lt _ (by omega)) h2
  have e1 := digitCharOf_inj _ _ (Nat.mod_lt _ (by omega)) (Nat.mod_lt _ (by omega)) h1
  have e0 := digitCharOf_inj _ _ (Nat.mod_lt _ (by omega)) (Nat.mod_lt _ (by omega)) h0
  omega

/-- No 6-digit code function on time windows is collision-free: any
assignment of code values below `10^6` to the infinitely many 30-second
windows repeats a value on two distinct windows. -/
theorem six_digit_code_collision (f : ℕ → ℕ) (hf : ∀ w, f w < 1000000) :
    ∃ w1 w2, w1 ≠ w2 ∧ f w1 = f w2 := by
  obtain ⟨x, y, hxy, hfe⟩ :=
    Finite.exists_ne_map_eq_of_infinite (fun w => (⟨f w, hf w⟩ : Fin 1000000))
  exact ⟨x, y, hxy, congrArg Fin.val hfe⟩

/-- C3 counterexample: the one-time-code generator at two clock times in
different 30-second windows returns the same code, refuting "two calls
whose clock times fall in different 30-second windows return different
codes" at a concrete input. -/
theorem generate_totp_distinct_windows_collide :
    windowOf 0 ≠ windowOf 30000000 ∧
    generate_totp 123456 0 = generate_totp 123456 30000000 := by
  constructor
  · decide
  · rfl

/-- C3 (amended): for a fixed seed the one-time code is a pure function
of the seed and the 30-second window, is a 6-character string of decimal
digits, two calls in the same window return the same code, and two calls
in adjacent windows return different codes (the code changes every 30
seconds); calls in arbitrary distinct windows may repeat a code. -/
theorem generate_totp_amended (seed c1 c2 : ℕ) :
    (generate_totp seed c1).length = 6 ∧
    (∀ ch ∈ (generate_totp seed c1).data, ch.isDigit = true) ∧
    (windowOf c1 = windowOf c2 → generate_totp seed c1 = generate_totp seed c2) ∧
    (windowOf c2 = windowOf c1 + 1 →
      generate_totp seed c1 ≠ generate_totp seed c2) := by
  refine ⟨rfl, ?_, ?_, ?_⟩
  · intro ch hch
    simp only [generate_totp, toCode6, String.data, List.mem_cons,
      List.not_mem_nil, or_false] at hch
    rcases hch with rfl | rfl | rfl | rfl | rfl | rfl <;>
      exact digitCharOf_isDigit _
  · intro h
    simp [generate_totp, h]
  · intro h heq
    have hne : totpValue seed (windowOf c1) ≠ totpValue seed (windowOf c2) := by
      rw [h]
      simp only [totpValue]
      omega
    exact hne (toCode6_inj _ _ (Nat.mod_lt _ (by omega)) (Nat.mod_lt _ (by omega)) heq)

/-- C3 witness: with seed 42 the code has six characters, the clock
times 5 and 20 (one window) give one code, and the clock times 0 and 30
(adjacent windows) give different codes. -/
theorem generate_totp_amended_witness :
    (generate_totp 42 0).length = 6 ∧
    generate_totp 42 5 = generate_totp 42 20 ∧
    generate_totp 42 0 ≠ generate_totp 42 30 :=
  ⟨(generate_totp_amended 42 0 0).1,
    (generate_totp_amended 42 5 20).2.2.1 (by decide),
    (generate_totp_amended 42 0 30).2.2.2 (by decide)⟩

/-- The reachable-state invariant of the two-caller single-flight
refresh: the refresh network call has been made exactly once as soon as
anyone has moved, the in-flight flag holds exactly while some caller is
refreshing, at most one caller refreshes, the session is valid exactly
once some caller finished, and a waiting caller always has the other
caller refreshing or finished. -/
def FlightInv (s : FlightState) : Prop :=
  (s.networkCalls = if s.pc1 = .start ∧ s.pc2 = .start then 0 else 1) ∧
  (s.inflight = true ↔ (s.pc1 = .refreshing ∨ s.pc2 = .refreshing)) ∧
  ¬(s.pc1 = .refreshing ∧ s.pc2 = .refreshing) ∧
  (s.sessionValid = true ↔ (s.pc1 = .done ∨ s.pc2 = .done)) ∧
  (s.pc1 = .waiting → (s.pc2 = .refreshing ∨ s.pc2 = .done)) ∧
  (s.pc2 = .waiting → (s.pc1 = .refreshing ∨ s.pc1 = .done))

/-- Each atomic caller step preserves the single-flight invariant. -/
theorem flightInv_step (s : FlightState) (i : Bool) (h : FlightInv s) :
    FlightInv (flightStep s i) := by
  obtain ⟨inflight, valid, nc, pc1, pc2⟩ := s
  cases i <;> cases pc1 <;> cases pc2 <;> cases inflight <;> cases valid <;>
    simp_all [FlightInv, flightStep, pcOf, setPC]

/-- Every cooperative schedule keeps the single-flight invariant. -/
theorem flightInv_run (sched : List Bool) : FlightInv (flightRun sched) := by
  have general : ∀ (l : List Bool) (s : FlightState), FlightInv s →
      FlightInv (l.foldl flightStep s) := by
    intro l
    induction l with
    | nil => intro s hs; exact hs
    | cons a t ih => intro s hs; exact ih _ (flightInv_step s a hs)
  exact general sched flightInit (by simp [FlightInv, flightInit])

/-- C8: under every interleaving of two concurrent `ensureValidSession`
callers that both found the session expired, once both callers have
completed, exactly one refresh network call was made and both observed
the refreshed (valid) session. -/
theorem single_flight_refresh (sched : List Bool)
    (h1 : (flightRun sched).pc1 = .done)
    (h2 : (flightRun sched).pc2 = .done) :
    (flightRun sched).networkCalls = 1 ∧
    (flightRun sched).sessionValid = true := by
  obtain ⟨hnc, _, _, hvalid, _, _⟩ := flightInv_run sched
  refine ⟨?_, hvalid.mpr (Or.inr h2)⟩
  rw [hnc, h1]
  simp

/-- C8 witness: the alternating schedule in which the second caller
arrives while the first caller's refresh is in flight ends with both
callers done, one network call, and a valid session. -/
theorem single_flight_refresh_witness :
    (flightRun [false, true, false, true]).networkCalls = 1 ∧
    (flightRun [false, true, false, true]).sessionValid = true :=
  single_flight_refresh [false, true, false, true] (by decide) (by decide)
